import Mathlib

/-!
Verification of the `EcsDeployment` construct of `cdk-ecs-codedeploy`
(`src/ecs-deployment/index.ts`), shallowly embedded in Lean 4.

The constructor's translation step is embedded directly from the source:
the rollback-trigger derivation (lines 75-84), the custom-resource property
bag (lines 86-98) and the forwarded provider timeout (lines 70-73).
External collaborators whose code is not part of this repository (the
deployment-group reference, the AppSpec model, the deployment-provider
factory, the custom-resource registration mechanism and the construct
identity tree) are modelled from the specification's contracts, each marked
`Modelled from the spec:` in its doc comment.
-/

namespace CdkEcsCodeDeploy

/-- A time quantity, standing for the framework's `cdk.Duration`.  This
component only constructs the 30-minute default and forwards the value;
it never interprets it. -/
structure Duration where
  millis : Nat
deriving DecidableEq, Repr

/-- `cdk.Duration.minutes(m)`. -/
def Duration.minutes (m : Nat) : Duration :=
  ⟨m * 60000⟩

/-- The rollback configuration (`codedeploy.AutoRollbackConfig`): three
independent optional booleans. -/
structure AutoRollbackConfig where
  deploymentInAlarm : Option Bool
  failedDeployment : Option Bool
  stoppedDeployment : Option Bool
deriving DecidableEq, Repr

/-- Modelled from the spec: the deployment-group reference collaborator
(`codedeploy.IEcsDeploymentGroup`), whose code is not in this repository.
It exposes the application name, the deployment-configuration name and the
deployment-group name that the property bag reads through. -/
structure EcsDeploymentGroupRef where
  applicationName : String
  deploymentConfigName : String
  deploymentGroupName : String
deriving DecidableEq, Repr

/-- Modelled from the spec: the AppSpec collaborator (`EcsAppSpec`), whose
code is not in this repository; it is reduced to the serialized string its
`toString` method produces. -/
structure EcsAppSpec where
  content : String
deriving DecidableEq, Repr

/-- `appspec.toString()`. -/
def EcsAppSpec.toString (a : EcsAppSpec) : String :=
  a.content

/-- Construction properties of `EcsDeployment` (`EcsDeploymentProps`). -/
structure EcsDeploymentProps where
  deploymentGroup : EcsDeploymentGroupRef
  appspec : EcsAppSpec
  autoRollback : Option AutoRollbackConfig
  description : Option String
  timeout : Option Duration
deriving DecidableEq, Repr

/-- JavaScript truthiness of `props.autoRollback?.flag`: an absent
configuration or an absent or false flag is falsy. -/
def optFlag (o : Option Bool) : Bool :=
  o.getD false

/-- The derived rollback-trigger-event list (source lines 75-84): starting
from the empty list, test the three booleans in the fixed order alarm,
failure, stopped, appending the corresponding token when truthy. -/
def rollbackEvents (autoRollback : Option AutoRollbackConfig) : List String :=
  let evs : List String := []
  let evs := if optFlag (autoRollback.bind AutoRollbackConfig.deploymentInAlarm) then
    evs ++ ["DEPLOYMENT_STOP_ON_ALARM"] else evs
  let evs := if optFlag (autoRollback.bind AutoRollbackConfig.failedDeployment) then
    evs ++ ["DEPLOYMENT_FAILURE"] else evs
  let evs := if optFlag (autoRollback.bind AutoRollbackConfig.stoppedDeployment) then
    evs ++ ["DEPLOYMENT_STOP_ON_REQUEST"] else evs
  evs

/-- The custom-resource property bag (source lines 89-97), as the object
literal: an ordered association list from key to possibly absent
(`undefined`) string value. -/
def requestProperties (props : EcsDeploymentProps) : List (String × Option String) :=
  let autoRollbackConfigurationEvents := rollbackEvents props.autoRollback
  [ ("applicationName", some props.deploymentGroup.applicationName),
    ("deploymentConfigName", some props.deploymentGroup.deploymentConfigName),
    ("deploymentGroupName", some props.deploymentGroup.deploymentGroupName),
    ("autoRollbackConfigurationEnabled",
      some (toString (decide (autoRollbackConfigurationEvents.length > 0)))),
    ("autoRollbackConfigurationEvents",
      some (String.intercalate "," autoRollbackConfigurationEvents)),
    ("description", props.description),
    ("revisionAppSpecContent", some props.appspec.toString) ]

/-- Modelled from the spec: the deployment-provider factory collaborator
(`EcsDeploymentProvider`, not in this repository) is observed through the
arguments of its creation call: a deployment-group reference and a timeout. -/
structure EcsDeploymentProviderProps where
  deploymentGroup : EcsDeploymentGroupRef
  timeout : Duration
deriving DecidableEq, Repr

/-- Modelled from the spec: one registration with the custom-resource
mechanism (`cdk.CustomResource`, not in this repository): a service token,
a resource-type tag and a flat property bag. -/
structure CustomResourceReg where
  serviceToken : String
  resourceType : String
  properties : List (String × Option String)
deriving DecidableEq, Repr

/-- The observable outcome of running the `EcsDeployment` constructor body:
the provider-creation calls made, the custom resources registered, and the
exposed `deploymentId` attribute handle. -/
structure EcsDeploymentResult where
  providerCalls : List EcsDeploymentProviderProps
  resources : List CustomResourceReg
  deploymentId : String
deriving DecidableEq, Repr

/-- The `EcsDeployment` constructor body (source lines 67-100), parameterized
by the two external collaborators: the provider factory, observed as the
service token it yields for given creation props, and the framework's
attribute lookup `getAttString`.  `props.timeout || cdk.Duration.minutes(30)`
falls back exactly when the timeout is absent, since a `Duration` object is
always truthy. -/
def EcsDeployment.construct
    (providerServiceToken : EcsDeploymentProviderProps → String)
    (getAttString : CustomResourceReg → String → String)
    (props : EcsDeploymentProps) : EcsDeploymentResult :=
  let providerProps : EcsDeploymentProviderProps :=
    { deploymentGroup := props.deploymentGroup
      timeout := props.timeout.getD (Duration.minutes 30) }
  let deployment : CustomResourceReg :=
    { serviceToken := providerServiceToken providerProps
      resourceType := "Custom::EcsDeployment"
      properties := requestProperties props }
  { providerCalls := [providerProps]
    resources := [deployment]
    deploymentId := getAttString deployment "deploymentId" }

/-- Modelled from the spec: the surrounding framework's construct identity
tree (the `constructs` library, not in this repository).  A scope keeps the
child identifiers already used; `super(scope, id)` with an identifier already
present is rejected as a duplicate before the constructor body runs. -/
def addChild (used : List String) (childId : String) : Except String (List String) :=
  if childId ∈ used then
    Except.error ("There is already a Construct with name " ++ childId)
  else
    Except.ok (used ++ [childId])

/-- `EcsDeployment.forDeploymentGroup` (source lines 58-60) traced against
the identity tree of the deployment-group scope: the child identifier is
always the fixed string "Deployment".  The first component records the
provider-creation calls the attempt makes; on an identity collision the
constructor body never runs, so none are made. -/
def EcsDeployment.forDeploymentGroup
    (providerServiceToken : EcsDeploymentProviderProps → String)
    (getAttString : CustomResourceReg → String → String)
    (used : List String) (props : EcsDeploymentProps) :
    List EcsDeploymentProviderProps × Except String (List String × EcsDeploymentResult) :=
  match addChild used "Deployment" with
  | Except.error e => ([], Except.error e)
  | Except.ok used2 =>
    let r := EcsDeployment.construct providerServiceToken getAttString props
    (r.providerCalls, Except.ok (used2, r))

/-- The all-some rollback configuration built from three plain booleans. -/
def mkAutoRollback (a f s : Bool) : AutoRollbackConfig :=
  { deploymentInAlarm := some a
    failedDeployment := some f
    stoppedDeployment := some s }

/-- The concrete configuration of §8's worked example: reference fields
app1/cfg1/grp1, AppSpec content "spec-content", no rollback configuration,
no description, no timeout. -/
def examplePropsDefault : EcsDeploymentProps :=
  { deploymentGroup :=
      { applicationName := "app1"
        deploymentConfigName := "cfg1"
        deploymentGroupName := "grp1" }
    appspec := ⟨"spec-content"⟩
    autoRollback := none
    description := none
    timeout := none }

/-- C4: on the §8 worked example (app1/cfg1/grp1, AppSpec "spec-content", no
rollback config, no description, default timeout) the property bag is exactly
the expected seven-entry bag, with enabled "false", events "" and an absent
description. -/
theorem request_bag_concrete_default :
    requestProperties examplePropsDefault =
      [ ("applicationName", some "app1"),
        ("deploymentConfigName", some "cfg1"),
        ("deploymentGroupName", some "grp1"),
        ("autoRollbackConfigurationEnabled", some "false"),
        ("autoRollbackConfigurationEvents", some ""),
        ("description", none),
        ("revisionAppSpecContent", some "spec-content") ] := by
  decide

/-- The §8 worked example with a description supplied, used to count the
keys of the property bag. -/
def examplePropsDescribed : EcsDeploymentProps :=
  { deploymentGroup :=
      { applicationName := "app1"
        deploymentConfigName := "cfg1"
        deploymentGroupName := "grp1" }
    appspec := ⟨"spec-content"⟩
    autoRollback := none
    description := some "a deployment"
    timeout := none }

/-- C1: for every combination of the three rollback booleans, the derived
trigger-event string is the comma-join of the tokens appended in the fixed
order alarm, failure, stopped for each boolean that is true; in particular
alarm and stopped alone yield
"DEPLOYMENT_STOP_ON_ALARM,DEPLOYMENT_STOP_ON_REQUEST". -/
theorem rollback_events_string_mapping (a f s : Bool) :
    String.intercalate "," (rollbackEvents (some (mkAutoRollback a f s))) =
      String.intercalate ","
        ((if a then ["DEPLOYMENT_STOP_ON_ALARM"] else []) ++
         (if f then ["DEPLOYMENT_FAILURE"] else []) ++
         (if s then ["DEPLOYMENT_STOP_ON_REQUEST"] else [])) ∧
    String.intercalate "," (rollbackEvents (some (mkAutoRollback true false true))) =
      "DEPLOYMENT_STOP_ON_ALARM,DEPLOYMENT_STOP_ON_REQUEST" := by
  cases a <;> cases f <;> cases s <;> exact ⟨by decide, by decide⟩

/-- C2: the property-bag value `autoRollbackConfigurationEnabled` is the
string "true" exactly when the derived rollback-trigger-event sequence is
non-empty, and "false" otherwise. -/
theorem enabled_iff_events_nonempty (props : EcsDeploymentProps) :
    (List.lookup "autoRollbackConfigurationEnabled" (requestProperties props) =
        some (some "true") ↔
      rollbackEvents props.autoRollback ≠ []) ∧
    (rollbackEvents props.autoRollback = [] →
      List.lookup "autoRollbackConfigurationEnabled" (requestProperties props) =
        some (some "false")) := by
  have hlk : List.lookup "autoRollbackConfigurationEnabled" (requestProperties props) =
      some (some (toString (decide ((rollbackEvents props.autoRollback).length > 0)))) := by
    rfl
  rw [hlk]
  cases h : rollbackEvents props.autoRollback with
  | nil => exact ⟨by decide, fun _ => by decide⟩
  | cons x xs =>
    refine ⟨⟨fun _ => by simp, fun _ => ?_⟩, fun hc => by simp at hc⟩
    have h1 : decide ((x :: xs).length > 0) = true := by simp
    rw [h1]
    decide

/-- C3 counterexample: on the worked example with a description present, the
property bag has seven distinct keys, not six. -/
theorem request_bag_not_six_keys :
    ((requestProperties examplePropsDescribed).map Prod.fst).Nodup ∧
    ((requestProperties examplePropsDescribed).map Prod.fst).length = 7 ∧
    ¬ ((requestProperties examplePropsDescribed).map Prod.fst).length = 6 := by
  refine ⟨by decide, by decide, by decide⟩

/-- C3 (amended): for every input configuration the property bag contains
exactly the seven keys listed in §4.1 step 4, in order (with `description`
possibly carrying an absent value), and its applicationName,
deploymentConfigName and deploymentGroupName values equal the corresponding
fields of the supplied deployment-group reference. -/
theorem request_bag_keys_exact (props : EcsDeploymentProps) :
    (requestProperties props).map Prod.fst =
      [ "applicationName", "deploymentConfigName", "deploymentGroupName",
        "autoRollbackConfigurationEnabled", "autoRollbackConfigurationEvents",
        "description", "revisionAppSpecContent" ] ∧
    List.lookup "applicationName" (requestProperties props) =
      some (some props.deploymentGroup.applicationName) ∧
    List.lookup "deploymentConfigName" (requestProperties props) =
      some (some props.deploymentGroup.deploymentConfigName) ∧
    List.lookup "deploymentGroupName" (requestProperties props) =
      some (some props.deploymentGroup.deploymentGroupName) := by
  exact ⟨rfl, rfl, rfl, rfl⟩

/-- C5: when the timeout property is absent the value forwarded to the
provider-creation call is a duration of 30 minutes; when it is present, the
supplied value is forwarded unchanged. -/
theorem timeout_default_and_passthrough
    (providerServiceToken : EcsDeploymentProviderProps → String)
    (getAttString : CustomResourceReg → String → String)
    (props : EcsDeploymentProps) (d : Duration) :
    (EcsDeployment.construct providerServiceToken getAttString
        { props with timeout := none }).providerCalls.map
        EcsDeploymentProviderProps.timeout = [Duration.minutes 30] ∧
    (EcsDeployment.construct providerServiceToken getAttString
        { props with timeout := some d }).providerCalls.map
        EcsDeploymentProviderProps.timeout = [d] := by
  exact ⟨rfl, rfl⟩

/-- C6: an absent rollback configuration produces exactly the same property
bag as one with all three booleans false, and in both cases the events
string is "" and the enabled flag is "false". -/
theorem absent_rollback_eq_all_false (props : EcsDeploymentProps) :
    requestProperties { props with autoRollback := none } =
      requestProperties
        { props with autoRollback := some (mkAutoRollback false false false) } ∧
    List.lookup "autoRollbackConfigurationEvents"
      (requestProperties { props with autoRollback := none }) = some (some "") ∧
    List.lookup "autoRollbackConfigurationEnabled"
      (requestProperties { props with autoRollback := none }) = some (some "false") := by
  exact ⟨rfl, rfl, rfl⟩

/-- C7: the first construction for a deployment group claims the fixed child
identifier "Deployment" and succeeds; a second construction under the same
deployment-group scope fails with an identity-collision error and makes no
provider-creation call. -/
theorem duplicate_deployment_collides
    (providerServiceToken : EcsDeploymentProviderProps → String)
    (getAttString : CustomResourceReg → String → String)
    (props1 props2 : EcsDeploymentProps) :
    EcsDeployment.forDeploymentGroup providerServiceToken getAttString [] props1 =
      (["Deployment"].map (fun _ =>
        { deploymentGroup := props1.deploymentGroup
          timeout := props1.timeout.getD (Duration.minutes 30) }),
       Except.ok (["Deployment"],
         EcsDeployment.construct providerServiceToken getAttString props1)) ∧
    (EcsDeployment.forDeploymentGroup providerServiceToken getAttString
        ["Deployment"] props2).1 = [] ∧
    (EcsDeployment.forDeploymentGroup providerServiceToken getAttString
        ["Deployment"] props2).2 =
      Except.error "There is already a Construct with name Deployment" := by
  exact ⟨rfl, rfl, rfl⟩

/-- C8: each construction registers exactly one custom resource, whose
resource-type tag is "Custom::EcsDeployment" and whose service token is the
one of the provider created under the same construct, and the output
`deploymentId` is exactly the "deploymentId" attribute of that registered
resource. -/
theorem single_resource_and_attribute
    (providerServiceToken : EcsDeploymentProviderProps → String)
    (getAttString : CustomResourceReg → String → String)
    (props : EcsDeploymentProps) :
    (EcsDeployment.construct providerServiceToken getAttString props).resources.length
      = 1 ∧
    (EcsDeployment.construct providerServiceToken getAttString props).resources =
      [ { serviceToken := providerServiceToken
            { deploymentGroup := props.deploymentGroup
              timeout := props.timeout.getD (Duration.minutes 30) }
          resourceType := "Custom::EcsDeployment"
          properties := requestProperties props } ] ∧
    (EcsDeployment.construct providerServiceToken getAttString props).deploymentId =
      getAttString
        { serviceToken := providerServiceToken
            { deploymentGroup := props.deploymentGroup
              timeout := props.timeout.getD (Duration.minutes 30) }
          resourceType := "Custom::EcsDeployment"
          properties := requestProperties props }
        "deploymentId" := by
  exact ⟨rfl, rfl, rfl⟩

/-- C9: the translation to the property bag is deterministic: two
constructions agreeing on the deployment-group fields, the serialized
AppSpec, the rollback configuration, the description and the timeout yield
identical property bags. -/
theorem request_bag_deterministic (p1 p2 : EcsDeploymentProps)
    (h1 : p1.deploymentGroup = p2.deploymentGroup)
    (h2 : p1.appspec.toString = p2.appspec.toString)
    (h3 : p1.autoRollback = p2.autoRollback)
    (h4 : p1.description = p2.description)
    (_h5 : p1.timeout = p2.timeout) :
    requestProperties p1 = requestProperties p2 := by
  simp only [requestProperties, h1, h2, h3, h4]

/-- Witness for C9 at a concrete pair of configurations. -/
theorem request_bag_deterministic_witness :
    requestProperties examplePropsDefault = requestProperties examplePropsDefault :=
  request_bag_deterministic examplePropsDefault examplePropsDefault rfl rfl rfl rfl rfl

/-- Splitting a character list at every occurrence of a separator character:
the split pieces, in order, separators removed.  On `[]` it yields `[[]]`,
matching the usual string-split convention that splitting the empty string
gives one empty piece. -/
def splitCharList (c : Char) : List Char → List (List Char)
  | [] => [[]]
  | x :: xs =>
    let r := splitCharList c xs
    if x = c then
      [] :: r
    else
      match r with
      | [] => [[x]]
      | y :: ys => (x :: y) :: ys

/-- Splitting a string on the comma character, with the usual split
semantics (the splitting the receiving side applies to
`autoRollbackConfigurationEvents`). -/
def splitOnComma (s : String) : List String :=
  (splitCharList ',' s.toList).map List.asString

/-- C10: the three rollback-trigger tokens contain no comma, and for every
non-empty derived trigger-event sequence, splitting the joined events string
on the comma recovers exactly the original token list, whose length is the
number of true rollback booleans. -/
theorem events_join_split_roundtrip (a f s : Bool)
    (h : a = true ∨ f = true ∨ s = true) :
    splitOnComma
        (String.intercalate "," (rollbackEvents (some (mkAutoRollback a f s)))) =
      rollbackEvents (some (mkAutoRollback a f s)) ∧
    (rollbackEvents (some (mkAutoRollback a f s))).length =
      (cond a 1 0) + (cond f 1 0) + (cond s 1 0) ∧
    ∀ t ∈ rollbackEvents (some (mkAutoRollback a f s)), ',' ∉ t.toList := by
  cases a <;> cases f <;> cases s <;> revert h <;> decide

/-- Witness for C10 at the alarm-and-stopped configuration. -/
theorem events_join_split_roundtrip_witness :
    splitOnComma
        (String.intercalate ","
          (rollbackEvents (some (mkAutoRollback true false true)))) =
      rollbackEvents (some (mkAutoRollback true false true)) ∧
    (rollbackEvents (some (mkAutoRollback true false true))).length =
      (cond true 1 0) + (cond false 1 0) + (cond true 1 0) ∧
    ∀ t ∈ rollbackEvents (some (mkAutoRollback true false true)),
      ',' ∉ t.toList :=
  events_join_split_roundtrip true false true (Or.inl rfl)

end CdkEcsCodeDeploy
